import Mathlib

/-!
Shallow embedding of the retrieval-and-assembly engine of
`src/indra_cogex/apps/search/search.py`: the functions
`get_ora_statements`, `get_signed_statements`, `get_metabolite_statements`
and their endpoint wrappers, together with models of the external
collaborators (`norm_id`, `indra_stmts_from_relations`,
`enrich_statements`, the Neo4j store) that the file calls but whose code
is not part of the repository; those are modelled from the spec and say so
in their doc comments.
-/

namespace IndraCogex

/-- One graph relation record as `client.neo4j_to_relation` returns it: the
fields of the Neo4j relationship that `search.py` reads (`type(r)`,
`r.stmt_hash`, `r.belief`, `r.evidence_count`, `r.stmt_type`) together with
the endpoint node properties the Cypher WHERE clauses consult (`id`,
`obsolete` of the start and end node). Belief is a float in [0,1], modelled
as a rational. -/
structure Relation where
  relType : String
  stmt_hash : Int
  belief : ℚ
  evidence_count : Nat
  stmt_type : String
  srcId : String
  dstId : String
  srcObsolete : Bool
  dstObsolete : Bool
  deriving Repr, DecidableEq

/-- Modelled from the spec: an assembled INDRA Statement (§3), keyed by its
statement hash (`stmt.get_hash()` of the seed relation's `stmt_hash`) and
carrying, after enrichment, its full evidence list (evidence units modelled
as opaque numbers). -/
structure Stmt where
  hash : Int
  evidence : List Nat
  deriving Repr, DecidableEq

/-- The output of one retrieval function: the assembled statement list and
the evidence-count mapping. The Python dict is modelled as the association
list of insertions in order (`dictKeys`/`dictGet` give the dict view). -/
structure RetrievalResult where
  stmts : List Stmt
  evidence_counts : List (Int × Nat)
  deriving Repr, DecidableEq

/-- The keys of the modelled dict. -/
def dictKeys (pairs : List (Int × Nat)) : List Int := pairs.map Prod.fst

/-- Lookup in the modelled dict: a Python dict keeps the last value written
to a key. -/
def dictGet (pairs : List (Int × Nat)) (k : Int) : Option Nat :=
  (pairs.reverse.find? (fun p => p.1 == k)).map Prod.snd

/-! ### Python string primitives -/

/-- Python `s.split(':')` on the character list: maximal runs between `':'`
characters, empty runs kept, always at least one element. -/
def splitColonChars : List Char → List (List Char)
  | [] => [[]]
  | c :: rest =>
      let r := splitColonChars rest
      if c = ':' then [] :: r
      else
        match r with
        | [] => [[c]]
        | xs :: t => (c :: xs) :: t

/-- Python `s.split(':')`. -/
def pySplit (s : String) : List String :=
  (splitColonChars s.toList).map (fun cs => String.mk cs)

/-- Python `s.split(':')[i]`: `none` models the `IndexError` raised when the
index is out of range. -/
def pySplitIndex (s : String) (i : Nat) : Option String :=
  (pySplit s).get? i

/-- Python `s.lower()` (ASCII case folding, which is all the identifiers
here use). -/
def pyLower (s : String) : String := String.mk (s.toList.map Char.toLower)

/-- Python `s.startswith(pre)`. -/
def pyStartsWith (s pre : String) : Bool := pre.toList.isPrefixOf s.toList

/-- Python `c in s` for a single character. -/
def pyContainsChar (s : String) (c : Char) : Bool := s.toList.contains c

/-- The numeric value of a digit string. -/
def natOfDigits (cs : List Char) : Nat :=
  cs.foldl (fun n c => 10 * n + (c.toNat - 48)) 0

/-- Python `s.strip()` (the whitespace classes differing from
`Char.isWhitespace` do not occur in these requests). -/
def pyStrip (s : String) : String :=
  String.mk (((s.toList.dropWhile Char.isWhitespace).reverse.dropWhile
    Char.isWhitespace).reverse)

/-- Python `int(s)` on the decimal forms the endpoints receive: optional
sign followed by one or more digits, surrounding whitespace stripped; any
other string raises `ValueError`, modelled as `none`. -/
def pyInt (s : String) : Option Int :=
  let t := (pyStrip s).toList
  let (sign, digits) : Int × List Char :=
    match t with
    | '-' :: rest => (-1, rest)
    | '+' :: rest => (1, rest)
    | _ => (1, t)
  if digits ≠ [] ∧ digits.all Char.isDigit then
    some (sign * (natOfDigits digits : Int))
  else none

/-- Python `float(s)` on the decimal forms the endpoints receive: optional
sign, an integer part and an optional fractional part with at least one
digit overall; any other string raises `ValueError` (`none`). -/
def pyFloat (s : String) : Option ℚ :=
  let t := (pyStrip s).toList
  let (sign, body) : ℚ × List Char :=
    match t with
    | '-' :: rest => (-1, rest)
    | '+' :: rest => (1, rest)
    | _ => (1, t)
  match (body.splitOn '.') with
  | [ip] =>
      if ip ≠ [] ∧ ip.all Char.isDigit then some (sign * natOfDigits ip)
      else none
  | [ip, fp] =>
      if (ip ≠ [] ∨ fp ≠ []) ∧ ip.all Char.isDigit ∧ fp.all Char.isDigit then
        some (sign * ((natOfDigits ip : ℚ) +
          (natOfDigits fp : ℚ) / ((10 : ℚ) ^ fp.length)))
      else none
  | _ => none

/-! ### Modelled collaborators -/

/-- Modelled from the spec: `norm_id` (from `indra_cogex.representation`,
not among the repository's files) canonicalizes a namespace and id into the
fixed lowercase `namespace:id` form (§3 EntityRef, §4.1). -/
def norm_id (ns id_ : String) : String := pyLower ns ++ ":" ++ pyLower id_

/-- The list comprehension `[norm_id('HGNC', gene.split(':')[1]) for gene
in genes]` of `get_ora_statements` / `get_signed_statements`: `none` models
the uncaught `IndexError` when a gene string has no `':'`, which aborts
the whole comprehension. -/
def normalizeGenes : List String → Option (List String)
  | [] => some []
  | g :: rest =>
      match pySplitIndex g 1 with
      | none => none
      | some idPart =>
          match normalizeGenes rest with
          | none => none
          | some l => some (norm_id "HGNC" idPart :: l)

/-- One relation per distinct `stmt_hash`, keeping the first-encountered
relation of each hash in order of first appearance. This is both the
`WITH distinct r.stmt_hash AS hash, collect(p) as pp` grouping of the ORA
Cypher query combined with the comprehension that keeps only the first
collected path of each group (`i[0]`), and the deduplication step of the
statement assembler. -/
def dedupByHash : List Relation → List Relation
  | [] => []
  | r :: rs => r :: (dedupByHash rs).filter (fun x => x.stmt_hash != r.stmt_hash)

/-- `dedupByHash` on the hash sequence alone: the order of first appearance
of each distinct hash. -/
def dedupInts : List Int → List Int
  | [] => []
  | h :: hs => h :: (dedupInts hs).filter (fun x => x != h)

/-- Modelled from the spec: the Statement assembled from a seed relation is
keyed by that relation's `statement_hash` (§3, §4.6); its evidence list is
filled in by enrichment. -/
def relationToStmt (r : Relation) : Stmt := { hash := r.stmt_hash, evidence := [] }

/-- Modelled from the spec: `indra_stmts_from_relations(rels,
deduplicate=True)` (from `indra_cogex.representation`, not among the
repository's files). §4.6: group relations by `statement_hash`, keep the
first-encountered relation of each group as the seed, produce one Statement
per distinct hash, in order of first appearance. -/
def indra_stmts_from_relations (rels : List Relation) : List Stmt :=
  (dedupByHash rels).map relationToStmt

/-- Modelled from the spec: `enrich_statements` (from
`indra_cogex.client.queries`, not among the repository's files) fetches
each statement's complete evidence list from the evidence store keyed by
statement hash (§4.7), preserving the statement sequence and hashes. -/
def enrich_statements (fetch : Int → List Nat) (stmts : List Stmt) : List Stmt :=
  stmts.map (fun s => { s with evidence := fetch s.hash })

/-- The dict comprehension `{stmt.get_hash(): rel.data.get(
"evidence_count", 0) for rel, stmt in zip(flattened_rels, stmts)}`
(search.py lines 254-257, 422-425, 560-563): the pairs inserted into the
dict, in order. -/
def evidenceCountPairs (rels : List Relation) (stmts : List Stmt) :
    List (Int × Nat) :=
  (rels.zip stmts).map (fun p => (p.2.hash, p.1.evidence_count))

/-! ### Query construction -/

/-- The relation labels `get_ora_statements` selects for a target
namespace (search.py lines 195-203). -/
def oraRelTypes (ns : String) : List String :=
  if ns = "mesh" then ["indra_rel", "has_indication"]
  else if ns = "fplx" then ["indra_rel", "isa"]
  else ["indra_rel"]

/-- The normalized target id `get_ora_statements` uses (lines 195-202). -/
def oraNormalizedTarget (target_id ns id_part : String) : String :=
  if ns = "mesh" then "mesh:" ++ id_part
  else if ns = "fplx" then "fplx:" ++ id_part
  else pyLower target_id

/-- The relation labels `get_signed_statements` selects for a target
namespace (search.py lines 317-331). -/
def signedRelTypes (ns : String) : List String :=
  if ns = "chebi" then ["indra_rel", "has_metabolite"]
  else if ns = "mesh" then ["indra_rel", "has_indication"]
  else if ns = "hgnc" then ["indra_rel"]
  else if ns = "fplx" then ["indra_rel", "isa"]
  else ["indra_rel"]

/-- The normalized target id `get_signed_statements` uses (lines 317-331). -/
def signedNormalizedTarget (target_id ns id_part : String) : String :=
  if ns = "chebi" then "chebi:" ++ id_part
  else if ns = "mesh" then "mesh:" ++ id_part
  else if ns = "hgnc" then "hgnc:" ++ id_part
  else if ns = "fplx" then "fplx:" ++ id_part
  else pyLower target_id

/-- The WHERE clause of the ORA Cypher query (lines 206-227): with
`is_downstream` the match is `(u)-[r]->(d {id: target})`, otherwise
`(d {id: target})-[r]->(u)`; `u` must be a non-obsolete hgnc gene of the
list and an `indra_rel` must beat the belief threshold strictly. -/
def oraWhere (normalized_target : String) (genes : List String)
    (rel_types : List String) (minimum_belief : ℚ) (is_downstream : Bool)
    (e : Relation) : Bool :=
  let dId := if is_downstream then e.dstId else e.srcId
  let uId := if is_downstream then e.srcId else e.dstId
  let uObsolete := if is_downstream then e.srcObsolete else e.dstObsolete
  dId == normalized_target && rel_types.contains e.relType &&
    pyStartsWith uId "hgnc" && !uObsolete && genes.contains uId &&
    (e.relType != "indra_rel" || decide (minimum_belief < e.belief))

/-- Cypher `r.evidence_count >= $minimum_evidence`: a comparison with a
null parameter is null, which the WHERE clause treats as false. -/
def evidenceGE : Option Int → Nat → Bool
  | none, _ => false
  | some n, c => decide (n ≤ (c : Int))

/-- The binding-independent conjuncts of the signed Cypher query's WHERE
clause (lines 334-349): relation label, strict belief threshold, evidence
threshold. -/
def signedRowFilter (rel_types : List String) (minimum_belief : ℚ)
    (minimum_evidence : Option Int) (e : Relation) : Bool :=
  rel_types.contains e.relType && decide (minimum_belief < e.belief) &&
    evidenceGE minimum_evidence e.evidence_count

/-- The gene→target binding of the undirected match
`(gene:BioEntity)-[r]-(target:BioEntity)`: `startNode(r) = gene`, so the
relation's start is the (non-obsolete) gene of the list, its end the
target, and `r.stmt_type` is drawn from `$stmt_types_gene_to_target`. -/
def signedGeneToTarget (normalized_target : String) (gene_list : List String)
    (g2t : List String) (e : Relation) : Bool :=
  e.dstId == normalized_target && gene_list.contains e.srcId &&
    !e.srcObsolete && g2t.contains e.stmt_type

/-- The target→gene binding of the undirected match: `startNode(r) =
target`, so the relation runs from the target to the (non-obsolete) gene
and `r.stmt_type` is drawn from `$stmt_types_target_to_gene`. -/
def signedTargetToGene (normalized_target : String) (gene_list : List String)
    (t2g : List String) (e : Relation) : Bool :=
  e.srcId == normalized_target && gene_list.contains e.dstId &&
    !e.dstObsolete && t2g.contains e.stmt_type

/-- The signed Cypher query (lines 334-350) over a store modelled as the
list of its relations: each relation yields one row per endpoint binding
that satisfies the WHERE clause. -/
def signedQuery (graph : List Relation) (normalized_target : String)
    (gene_list rel_types : List String) (minimum_belief : ℚ)
    (minimum_evidence : Option Int) (g2t t2g : List String) : List Relation :=
  graph.flatMap (fun e =>
    (if signedRowFilter rel_types minimum_belief minimum_evidence e &&
        signedGeneToTarget normalized_target gene_list g2t e then [e] else []) ++
    (if signedRowFilter rel_types minimum_belief minimum_evidence e &&
        signedTargetToGene normalized_target gene_list t2g e then [e] else []))

/-- The `$stmt_types_gene_to_target` literal of the positive-genes query
(lines 363-366). -/
def posStmtTypesGeneToTarget : List String := ["DecreaseAmount", "Inhibition"]

/-- The `$stmt_types_target_to_gene` literal of the positive-genes query
(lines 368-372). -/
def posStmtTypesTargetToGene : List String :=
  ["IncreaseAmount", "Activation", "Complex"]

/-- The `$stmt_types_gene_to_target` literal of the negative-genes query
(lines 391-394). -/
def negStmtTypesGeneToTarget : List String := ["IncreaseAmount", "Activation"]

/-- The `$stmt_types_target_to_gene` literal of the negative-genes query
(lines 396-399). -/
def negStmtTypesTargetToGene : List String := ["DecreaseAmount", "Inhibition"]

/-- The binding-independent conjuncts of the metabolite Cypher query's
WHERE clause (lines 517-525): the `indra_rel` label of the match pattern,
strict belief threshold, evidence threshold. -/
def metaboliteRowFilter (minimum_belief : ℚ) (minimum_evidence : Option Int)
    (e : Relation) : Bool :=
  e.relType == "indra_rel" && decide (minimum_belief < e.belief) &&
    evidenceGE minimum_evidence e.evidence_count

/-- The met→target binding of the undirected match `(met:BioEntity)-
[r:indra_rel]-(target:BioEntity)`. -/
def metaboliteMetToTarget (normalized_target : String)
    (metabolite_list : List String) (e : Relation) : Bool :=
  e.dstId == normalized_target && metabolite_list.contains e.srcId &&
    !e.srcObsolete

/-- The target→met binding of the undirected match. -/
def metaboliteTargetToMet (normalized_target : String)
    (metabolite_list : List String) (e : Relation) : Bool :=
  e.srcId == normalized_target && metabolite_list.contains e.dstId &&
    !e.dstObsolete

/-- The main Cypher query of `get_metabolite_statements` (lines 517-525):
undirected `(met:BioEntity)-[r:indra_rel]-(target:BioEntity)`, one row per
satisfied endpoint binding. -/
def metaboliteQuery (graph : List Relation) (normalized_target : String)
    (metabolite_list : List String) (minimum_belief : ℚ)
    (minimum_evidence : Option Int) : List Relation :=
  graph.flatMap (fun e =>
    (if metaboliteRowFilter minimum_belief minimum_evidence e &&
        metaboliteMetToTarget normalized_target metabolite_list e
      then [e] else []) ++
    (if metaboliteRowFilter minimum_belief minimum_evidence e &&
        metaboliteTargetToMet normalized_target metabolite_list e
      then [e] else []))

/-! ### Retrieval pipelines

Each pipeline takes the graph store modelled as the list of its relations
and the evidence store modelled as a fetch function, and returns the
result together with the number of main-query store calls it executed
(`query_tx` of the statement query); `none` models an uncaught Python
exception aborting the invocation before any result is produced. -/

/-- The Python filter `if minimum_evidence:` followed by the comprehension
keeping relations with `rel.data.get("evidence_count", 0) >=
minimum_evidence` (lines 239-243); a `None` or `0` threshold skips the
filter. -/
def pythonMinEvidenceFilter (minimum_evidence : Option Int)
    (rels : List Relation) : List Relation :=
  match minimum_evidence with
  | none => rels
  | some n => if n = 0 then rels
      else rels.filter (fun r => decide (n ≤ (r.evidence_count : Int)))

/-- `get_ora_statements` (search.py lines 153-259). -/
def get_ora_statements (graph : List Relation) (fetch : Int → List Nat)
    (target_id : String) (genes : List String) (minimum_belief : ℚ)
    (minimum_evidence : Option Int) (is_downstream : Bool) :
    Option RetrievalResult × Nat :=
  match normalizeGenes genes, pySplitIndex target_id 1 with
  | some normalized_genes, some id_part =>
      let ns := pyLower (((pySplit target_id).get? 0).getD "")
      let normalized_target := oraNormalizedTarget target_id ns id_part
      let rel_types := oraRelTypes ns
      let flattened_rels := dedupByHash (graph.filter
        (oraWhere normalized_target normalized_genes rel_types minimum_belief
          is_downstream))
      let flattened_rels := pythonMinEvidenceFilter minimum_evidence flattened_rels
      let stmts := enrich_statements fetch (indra_stmts_from_relations flattened_rels)
      (some { stmts := stmts,
              evidence_counts := evidenceCountPairs flattened_rels stmts }, 1)
  | _, _ => (none, 0)

/-- `get_signed_statements` (search.py lines 298-428). -/
def get_signed_statements (graph : List Relation) (fetch : Int → List Nat)
    (target_id : String) (positive_genes negative_genes : List String)
    (minimum_belief : ℚ) (minimum_evidence : Option Int) :
    Option RetrievalResult × Nat :=
  match normalizeGenes positive_genes, normalizeGenes negative_genes,
      pySplitIndex target_id 1 with
  | some pos_genes, some neg_genes, some id_part =>
      let ns := pyLower (((pySplit target_id).get? 0).getD "")
      let normalized_target := signedNormalizedTarget target_id ns id_part
      let rel_types := signedRelTypes ns
      let posRels := if pos_genes.isEmpty then [] else
        signedQuery graph normalized_target pos_genes rel_types minimum_belief
          minimum_evidence posStmtTypesGeneToTarget posStmtTypesTargetToGene
      let negRels := if neg_genes.isEmpty then [] else
        signedQuery graph normalized_target neg_genes rel_types minimum_belief
          minimum_evidence negStmtTypesGeneToTarget negStmtTypesTargetToGene
      let flattened_rels := posRels ++ negRels
      let stmts := enrich_statements fetch (indra_stmts_from_relations flattened_rels)
      (some { stmts := stmts,
              evidence_counts := evidenceCountPairs flattened_rels stmts },
       (if pos_genes.isEmpty then 0 else 1) + (if neg_genes.isEmpty then 0 else 1))
  | _, _, _ => (none, 0)

/-- `get_metabolite_statements` (search.py lines 470-567). The output of
`parse_metabolites` (from `indra_cogex.analysis.metabolite_analysis`, not
among the repository's files; §4.1: resolved chebi ids alongside an errors
list that does not abort the batch) is passed in as `parsed`. The
discovery query (lines 500-514) only feeds logging and is not part of the
result; the returned call count covers the main statement query. -/
def get_metabolite_statements (graph : List Relation) (fetch : Int → List Nat)
    (parsed : List String × List String) (target_id : String)
    (minimum_belief : ℚ) (minimum_evidence : Option Int) :
    RetrievalResult × Nat :=
  let chebi_ids := parsed.1
  let metabolite_list := chebi_ids.map (fun m => "chebi:" ++ pyLower m)
  let normalized_target :=
    if pyContainsChar target_id ':' then target_id else "eccode:" ++ target_id
  let flattened_rels := metaboliteQuery graph normalized_target metabolite_list
    minimum_belief minimum_evidence
  let stmts := enrich_statements fetch (indra_stmts_from_relations flattened_rels)
  ({ stmts := stmts,
     evidence_counts := evidenceCountPairs flattened_rels stmts }, 1)

/-! ### Endpoint wrappers -/

/-- The query-string arguments of `/search/ora_statements/`: `none` for a
parameter absent from the request. -/
structure OraRequest where
  target_id : Option String
  genes : List String
  is_downstream : Option String
  minimum_evidence : Option String
  minimum_belief : Option String
  deriving Repr, DecidableEq

/-- `int(request.args.get("minimum_evidence") or 2)` of
`search_ora_statements` (line 271): an absent or empty parameter falls
back to the literal `2` before coercion. -/
def oraMinimumEvidence : Option String → Option Int
  | none => some 2
  | some s => if s = "" then some 2 else pyInt s

/-- `float(request.args.get("minimum_belief") or 0.0)` of
`search_ora_statements` (line 272). -/
def oraMinimumBelief : Option String → Option ℚ
  | none => some 0
  | some s => if s = "" then some 0 else pyFloat s

/-- `int(request.args.get("minimum_evidence", "1"))` of
`search_signed_statements` (lines 443, 447). -/
def signedMinimumEvidence (arg : Option String) : Option Int :=
  pyInt (arg.getD "1")

/-- `float(request.args.get("minimum_belief", "0.0"))` of
`search_signed_statements` (lines 444, 448). -/
def signedMinimumBelief (arg : Option String) : Option ℚ :=
  pyFloat (arg.getD "0.0")

/-- `int(request.args.get("minimum_evidence", "1"))` of
`search_metabolite_statements` (line 578). -/
def metaboliteMinimumEvidence (arg : Option String) : Option Int :=
  pyInt (arg.getD "1")

/-- `float(request.args.get("minimum_belief", "0.0"))` of
`search_metabolite_statements` (line 579). -/
def metaboliteMinimumBelief (arg : Option String) : Option ℚ :=
  pyFloat (arg.getD "0.0")

/-- `search_ora_statements` (lines 262-295): coerce the numeric
parameters (a failure is the 400 "Invalid parameter values" response),
require a non-empty `target_id` and gene list (else the 400 "target_id and
genes are required" response), then run the pipeline; an exception inside
it becomes a 500 response. The second component counts graph-store
statement queries executed. -/
def search_ora_statements (graph : List Relation) (fetch : Int → List Nat)
    (req : OraRequest) : Except String RetrievalResult × Nat :=
  match oraMinimumEvidence req.minimum_evidence,
      oraMinimumBelief req.minimum_belief with
  | some minimum_evidence, some minimum_belief =>
      if req.target_id.getD "" = "" ∨ req.genes = [] then
        (Except.error "target_id and genes are required", 0)
      else
        let is_downstream := pyLower (req.is_downstream.getD "") = "true"
        match get_ora_statements graph fetch (req.target_id.getD "") req.genes
            minimum_belief (some minimum_evidence) is_downstream with
        | (some res, n) => (Except.ok res, n)
        | (none, n) => (Except.error "internal error", n)
  | _, _ => (Except.error "Invalid parameter values", 0)

/-! ### Concrete store contents used by the counterexamples -/

/-- A store relation between the gene `hgnc:1` and the target
`mesh:D007239` carrying the given statement hash, evidence count and
statement type. -/
def sampleEdge (h : Int) (ev : Nat) (st : String) : Relation :=
  { relType := "indra_rel", stmt_hash := h, belief := 1, evidence_count := ev,
    stmt_type := st, srcId := "hgnc:1", dstId := "mesh:D007239",
    srcObsolete := false, dstObsolete := false }

/-- A store answering the signed positive-genes query with two relations of
hash 1 (evidence count 5 each) followed by one of hash 2 (evidence
count 7); duplicate hashes across returned rows are exactly what the ORA
query's `WITH distinct r.stmt_hash` grouping exists to collapse. -/
def misalignedGraph : List Relation :=
  [sampleEdge 1 5 "Inhibition", sampleEdge 1 5 "Inhibition",
   sampleEdge 2 7 "DecreaseAmount"]

/-- A store with two hash-1 relations of evidence count 5 and one hash-2
relation of evidence count 9. -/
def thresholdGraph : List Relation :=
  [sampleEdge 1 5 "Inhibition", sampleEdge 1 5 "Inhibition",
   sampleEdge 2 9 "DecreaseAmount"]

/-- A discrete-retrieval request with an empty gene list. -/
def emptyGenesRequest : OraRequest :=
  { target_id := some "GO:0006955", genes := [], is_downstream := none,
    minimum_evidence := none, minimum_belief := none }

/-! ### Deduplication lemmas -/

theorem dedupByHash_pairwise (l : List Relation) :
    (dedupByHash l).Pairwise (fun a b => a.stmt_hash ≠ b.stmt_hash) := by
  induction l with
  | nil => exact List.Pairwise.nil
  | cons r rs ih =>
      refine List.Pairwise.cons ?_ (ih.filter _)
      intro x hx
      have hne := (List.mem_filter.mp hx).2
      simp only [bne_iff_ne, ne_eq] at hne
      exact fun e => hne e.symm

theorem mem_of_mem_dedupByHash {x : Relation} {l : List Relation}
    (h : x ∈ dedupByHash l) : x ∈ l := by
  induction l with
  | nil => simp [dedupByHash] at h
  | cons r rs ih =>
      simp only [dedupByHash] at h
      rcases List.mem_cons.mp h with he | h
      · exact he ▸ List.mem_cons_self _ _
      · exact List.mem_cons_of_mem _ (ih (List.mem_filter.mp h).1)

theorem find?_dedupByHash {x : Relation} {l : List Relation}
    (h : x ∈ dedupByHash l) :
    l.find? (fun y => y.stmt_hash == x.stmt_hash) = some x := by
  induction l with
  | nil => simp [dedupByHash] at h
  | cons r rs ih =>
      simp only [dedupByHash] at h
      rcases List.mem_cons.mp h with he | h
      · subst he
        exact List.find?_cons_of_pos _ (by simp)
      · have hne : x.stmt_hash ≠ r.stmt_hash := by
          have hb := (List.mem_filter.mp h).2
          simpa only [bne_iff_ne, ne_eq] using hb
        rw [List.find?_cons_of_neg _ (by simpa using fun e => hne e.symm)]
        exact ih (List.mem_filter.mp h).1

theorem filter_hash_map (l : List Relation) (h : Int) :
    (l.filter (fun x => x.stmt_hash != h)).map Relation.stmt_hash =
      (l.map Relation.stmt_hash).filter (fun x => x != h) := by
  induction l with
  | nil => rfl
  | cons r rs ih =>
      by_cases hr : r.stmt_hash != h
      · simp [List.filter_cons, hr, ih]
      · simp [List.filter_cons, hr, ih]

theorem map_hash_dedupByHash (l : List Relation) :
    (dedupByHash l).map Relation.stmt_hash = dedupInts (l.map Relation.stmt_hash) := by
  induction l with
  | nil => rfl
  | cons r rs ih =>
      simp only [dedupByHash, dedupInts, List.map_cons, List.map]
      rw [filter_hash_map, ih]

theorem mem_dedupInts {x : Int} {l : List Int} : x ∈ dedupInts l ↔ x ∈ l := by
  induction l with
  | nil => simp [dedupInts]
  | cons h hs ih =>
      constructor
      · intro hx
        simp only [dedupInts] at hx
        rcases List.mem_cons.mp hx with he | hx
        · exact he ▸ List.mem_cons_self _ _
        · exact List.mem_cons_of_mem _ (ih.mp (List.mem_filter.mp hx).1)
      · intro hx
        rcases List.mem_cons.mp hx with he | hx
        · simp [dedupInts, he]
        · by_cases hxh : x = h
          · simp [dedupInts, hxh]
          · exact List.mem_cons_of_mem _
              (List.mem_filter.mpr ⟨ih.mpr hx, by simpa [bne] using hxh⟩)

theorem length_dedupByHash_le (l : List Relation) :
    (dedupByHash l).length ≤ l.length := by
  induction l with
  | nil => simp [dedupByHash]
  | cons r rs ih =>
      simp only [dedupByHash, List.length_cons]
      exact Nat.succ_le_succ (Nat.le_trans (List.length_filter_le _ _) ih)

/-! ### Assembled statements and the evidence index -/

/-- The statement list a pipeline assembles from its flattened relations:
enrichment and assembly preserve the relation hashes of the deduplicated
seed relations, in order. -/
theorem map_hash_assembled (fetch : Int → List Nat) (rels : List Relation) :
    (enrich_statements fetch (indra_stmts_from_relations rels)).map Stmt.hash =
      (dedupByHash rels).map Relation.stmt_hash := by
  simp only [enrich_statements, indra_stmts_from_relations, List.map_map]
  exact List.map_congr_left (fun a _ => rfl)

theorem length_assembled (fetch : Int → List Nat) (rels : List Relation) :
    (enrich_statements fetch (indra_stmts_from_relations rels)).length ≤
      rels.length := by
  have := congrArg List.length (map_hash_assembled fetch rels)
  simp only [List.length_map] at this
  exact this ▸ length_dedupByHash_le rels

/-- The keys of the evidence-count dict a pipeline builds are exactly the
hashes of the statements it returns, in order: `zip` truncates at the
shorter list, and the statement list is never longer than the relation
list it came from. -/
theorem dictKeys_evidenceCountPairs (fetch : Int → List Nat) (rels : List Relation) :
    dictKeys (evidenceCountPairs rels
        (enrich_statements fetch (indra_stmts_from_relations rels))) =
      (enrich_statements fetch (indra_stmts_from_relations rels)).map Stmt.hash := by
  set stmts := enrich_statements fetch (indra_stmts_from_relations rels) with hs
  have hlen : stmts.length ≤ rels.length := length_assembled fetch rels
  calc dictKeys (evidenceCountPairs rels stmts)
      = ((rels.zip stmts).map Prod.snd).map Stmt.hash := by
        simp [dictKeys, evidenceCountPairs, List.map_map]
    _ = stmts.map Stmt.hash := by rw [List.map_snd_zip _ _ hlen]

/-- The assembled statement hashes are exactly the hashes occurring in the
flattened relation list. -/
theorem mem_assembled_hash {fetch : Int → List Nat} {rels : List Relation}
    {h : Int} :
    h ∈ (enrich_statements fetch (indra_stmts_from_relations rels)).map Stmt.hash ↔
      h ∈ rels.map Relation.stmt_hash := by
  rw [map_hash_assembled, map_hash_dedupByHash]
  exact mem_dedupInts

/-! ### Query membership lemmas -/

theorem mem_twoIf {e a : Relation} {c₁ c₂ : Bool} :
    e ∈ ((if c₁ then [a] else []) ++ (if c₂ then [a] else [])) ↔
      e = a ∧ (c₁ = true ∨ c₂ = true) := by
  rcases c₁ <;> rcases c₂ <;> simp

theorem mem_signedQuery {graph : List Relation} {nt : String}
    {gl rt : List String} {mb : ℚ} {me : Option Int} {g2t t2g : List String}
    {e : Relation} :
    e ∈ signedQuery graph nt gl rt mb me g2t t2g ↔
      e ∈ graph ∧ signedRowFilter rt mb me e = true ∧
        (signedGeneToTarget nt gl g2t e = true ∨
          signedTargetToGene nt gl t2g e = true) := by
  simp only [signedQuery, List.mem_flatMap]
  constructor
  · rintro ⟨a, ha, hm⟩
    rcases mem_twoIf.mp hm with ⟨rfl, hc⟩
    simp only [Bool.and_eq_true] at hc
    rcases hc with ⟨hf, hd⟩ | ⟨hf, hd⟩
    · exact ⟨ha, hf, Or.inl hd⟩
    · exact ⟨ha, hf, Or.inr hd⟩
  · rintro ⟨he, hf, hd | hd⟩
    · exact ⟨e, he, mem_twoIf.mpr ⟨rfl, Or.inl (by simp [hf, hd])⟩⟩
    · exact ⟨e, he, mem_twoIf.mpr ⟨rfl, Or.inr (by simp [hf, hd])⟩⟩

theorem mem_metaboliteQuery {graph : List Relation} {nt : String}
    {ml : List String} {mb : ℚ} {me : Option Int} {e : Relation} :
    e ∈ metaboliteQuery graph nt ml mb me ↔
      e ∈ graph ∧ metaboliteRowFilter mb me e = true ∧
        (metaboliteMetToTarget nt ml e = true ∨
          metaboliteTargetToMet nt ml e = true) := by
  simp only [metaboliteQuery, List.mem_flatMap]
  constructor
  · rintro ⟨a, ha, hm⟩
    rcases mem_twoIf.mp hm with ⟨rfl, hc⟩
    simp only [Bool.and_eq_true] at hc
    rcases hc with ⟨hf, hd⟩ | ⟨hf, hd⟩
    · exact ⟨ha, hf, Or.inl hd⟩
    · exact ⟨ha, hf, Or.inr hd⟩
  · rintro ⟨he, hf, hd | hd⟩
    · exact ⟨e, he, mem_twoIf.mpr ⟨rfl, Or.inl (by simp [hf, hd])⟩⟩
    · exact ⟨e, he, mem_twoIf.mpr ⟨rfl, Or.inr (by simp [hf, hd])⟩⟩

/-! ### Monotonicity in the evidence threshold -/

theorem evidenceGE_mono {n : Int} {c : Nat}
    (h : evidenceGE (some (n + 1)) c = true) : evidenceGE (some n) c = true := by
  simp only [evidenceGE, decide_eq_true_eq] at h ⊢
  omega

theorem signedRowFilter_mono {rt : List String} {mb : ℚ} {n : Int}
    {e : Relation} (h : signedRowFilter rt mb (some (n + 1)) e = true) :
    signedRowFilter rt mb (some n) e = true := by
  simp only [signedRowFilter, Bool.and_eq_true] at h ⊢
  exact ⟨h.1, evidenceGE_mono h.2⟩

theorem metaboliteRowFilter_mono {mb : ℚ} {n : Int} {e : Relation}
    (h : metaboliteRowFilter mb (some (n + 1)) e = true) :
    metaboliteRowFilter mb (some n) e = true := by
  simp only [metaboliteRowFilter, Bool.and_eq_true] at h ⊢
  exact ⟨h.1, evidenceGE_mono h.2⟩

theorem mem_pythonMinEvidenceFilter_succ {n : Int} {x : Relation}
    {l : List Relation} (h : x ∈ pythonMinEvidenceFilter (some (n + 1)) l) :
    x ∈ pythonMinEvidenceFilter (some n) l := by
  by_cases h0 : n = 0
  · subst h0
    simp only [pythonMinEvidenceFilter, if_pos rfl]
    simp only [pythonMinEvidenceFilter, if_neg one_ne_zero] at h
    exact List.mem_of_mem_filter h
  · by_cases h1 : n + 1 = 0
    · simp only [pythonMinEvidenceFilter, if_pos h1] at h
      simp only [pythonMinEvidenceFilter, if_neg h0]
      refine List.mem_filter.mpr ⟨h, ?_⟩
      simp only [decide_eq_true_eq]
      omega
    · simp only [pythonMinEvidenceFilter, if_neg h1] at h
      simp only [pythonMinEvidenceFilter, if_neg h0]
      have hm := List.mem_filter.mp h
      refine List.mem_filter.mpr ⟨hm.1, ?_⟩
      have := hm.2
      simp only [decide_eq_true_eq] at this ⊢
      omega

/-! ### Identifier normalization lemmas -/

theorem splitColonChars_no_colon {cs : List Char} (h : ':' ∉ cs) :
    splitColonChars cs = [cs] := by
  induction cs with
  | nil => rfl
  | cons c rest ih =>
      have hc : ¬ c = ':' := fun e => h (e ▸ List.mem_cons_self _ _)
      have hr : ':' ∉ rest := fun hm => h (List.mem_cons_of_mem _ hm)
      simp [splitColonChars, hc, ih hr]

theorem pySplitIndex_one_eq_none {g : String}
    (h : pyContainsChar g ':' = false) : pySplitIndex g 1 = none := by
  have hn : ':' ∉ g.toList := by
    simpa [pyContainsChar] using h
  unfold pySplitIndex pySplit
  rw [splitColonChars_no_colon hn]
  rfl

theorem normalizeGenes_eq_none {genes : List String} {g : String}
    (hg : g ∈ genes) (h : pySplitIndex g 1 = none) :
    normalizeGenes genes = none := by
  induction genes with
  | nil => cases hg
  | cons a rest ih =>
      rcases List.mem_cons.mp hg with rfl | hg
      · simp [normalizeGenes, h]
      · cases ha : pySplitIndex a 1 with
        | none => simp [normalizeGenes, ha]
        | some v => simp [normalizeGenes, ha, ih hg]

/-! ### The claims -/

/-- C2, counterexample: the claim promises the `has_metabolite` label for
`chebi` targets in every analysis mode, but the discrete/ORA query
construction has no `chebi` branch and selects only the generic
`indra_rel` label for a chebi target. -/
theorem c2_counterexample :
    oraRelTypes "chebi" = ["indra_rel"] ∧
      "has_metabolite" ∉ oraRelTypes "chebi" := by
  exact ⟨rfl, by decide⟩

/-- C2, amended: the relation-label table over the supported namespaces.
In signed mode it is as documented (`has_indication` for mesh, `isa` for
fplx, `has_metabolite` for chebi, nothing extra otherwise); in
discrete/ORA mode only the mesh and fplx rows exist, so a chebi target
gets no `has_metabolite` label there. -/
theorem c2_relation_label_table :
    oraRelTypes "hgnc" = ["indra_rel"] ∧
    oraRelTypes "mesh" = ["indra_rel", "has_indication"] ∧
    oraRelTypes "fplx" = ["indra_rel", "isa"] ∧
    oraRelTypes "chebi" = ["indra_rel"] ∧
    oraRelTypes "go" = ["indra_rel"] ∧
    oraRelTypes "eccode" = ["indra_rel"] ∧
    (∀ ns : String, ns ≠ "mesh" → ns ≠ "fplx" → oraRelTypes ns = ["indra_rel"]) ∧
    signedRelTypes "hgnc" = ["indra_rel"] ∧
    signedRelTypes "mesh" = ["indra_rel", "has_indication"] ∧
    signedRelTypes "fplx" = ["indra_rel", "isa"] ∧
    signedRelTypes "chebi" = ["indra_rel", "has_metabolite"] ∧
    signedRelTypes "go" = ["indra_rel"] ∧
    signedRelTypes "eccode" = ["indra_rel"] ∧
    (∀ ns : String, ns ≠ "chebi" → ns ≠ "mesh" → ns ≠ "hgnc" → ns ≠ "fplx" →
      signedRelTypes ns = ["indra_rel"]) := by
  refine ⟨rfl, rfl, rfl, rfl, rfl, rfl, ?_, rfl, rfl, rfl, rfl, rfl, rfl, ?_⟩
  · intro ns h1 h2
    simp [oraRelTypes, h1, h2]
  · intro ns h1 h2 h3 h4
    simp [signedRelTypes, h1, h2, h3, h4]

/-- C3: in signed analysis a relation is returned by the positive-genes
query exactly when, besides the label/belief/evidence conjuncts, it
matches the gene→target binding with statement type in {DecreaseAmount,
Inhibition} or the target→gene binding with statement type in
{IncreaseAmount, Activation, Complex}; for the negative-genes query the
two lists are {IncreaseAmount, Activation} and {DecreaseAmount,
Inhibition} respectively. -/
theorem c3_sign_direction_table (graph : List Relation) (nt : String)
    (gl rt : List String) (mb : ℚ) (me : Option Int) (e : Relation) :
    (e ∈ signedQuery graph nt gl rt mb me posStmtTypesGeneToTarget
        posStmtTypesTargetToGene ↔
      e ∈ graph ∧ signedRowFilter rt mb me e = true ∧
        (signedGeneToTarget nt gl ["DecreaseAmount", "Inhibition"] e = true ∨
          signedTargetToGene nt gl ["IncreaseAmount", "Activation", "Complex"]
            e = true)) ∧
    (e ∈ signedQuery graph nt gl rt mb me negStmtTypesGeneToTarget
        negStmtTypesTargetToGene ↔
      e ∈ graph ∧ signedRowFilter rt mb me e = true ∧
        (signedGeneToTarget nt gl ["IncreaseAmount", "Activation"] e = true ∨
          signedTargetToGene nt gl ["DecreaseAmount", "Inhibition"] e = true)) := by
  exact ⟨mem_signedQuery, mem_signedQuery⟩

/-- C5: assembly deduplicates by statement hash: no two assembled
statements share a hash; every relation kept as a group's seed is the
first relation of its hash in input order; every input hash appears among
the assembled statements; and the assembled hash sequence is the order of
first appearance of the distinct input hashes. -/
theorem c5_statement_assembly (rels : List Relation) :
    (indra_stmts_from_relations rels).Pairwise (fun a b => a.hash ≠ b.hash) ∧
    (∀ r ∈ dedupByHash rels,
        rels.find? (fun y => y.stmt_hash == r.stmt_hash) = some r) ∧
    (∀ h : Int, h ∈ (indra_stmts_from_relations rels).map Stmt.hash ↔
        h ∈ rels.map Relation.stmt_hash) ∧
    (indra_stmts_from_relations rels).map Stmt.hash =
      dedupInts (rels.map Relation.stmt_hash) := by
  have hmap : (indra_stmts_from_relations rels).map Stmt.hash =
      dedupInts (rels.map Relation.stmt_hash) := by
    rw [indra_stmts_from_relations, List.map_map]
    exact map_hash_dedupByHash rels
  refine ⟨?_, ?_, ?_, hmap⟩
  · exact (dedupByHash_pairwise rels).map relationToStmt (fun a b hab => hab)
  · intro r hr
    exact find?_dedupByHash hr
  · intro h
    rw [hmap]
    exact mem_dedupInts

/-- The default string `"0.0"` of the signed and metabolite endpoints
coerces to the rational 0. -/
theorem pyFloat_zero_literal : pyFloat "0.0" = some 0 := by
  have h : pyFloat "0.0" =
      some ((1 : ℚ) * ((natOfDigits ['0'] : ℚ) +
        (natOfDigits ['0'] : ℚ) / (10 : ℚ) ^ (['0'] : List Char).length)) := rfl
  have h0 : '0'.toNat - 48 = 0 := rfl
  rw [h]
  norm_num [natOfDigits, h0]

/-- C6: with the parameter absent from the request, `minimum_evidence`
defaults to 2 in discrete/ORA retrieval but to 1 in signed and metabolite
retrieval, and `minimum_belief` defaults to 0.0 in all three. -/
theorem c6_threshold_defaults :
    oraMinimumEvidence none = some 2 ∧ oraMinimumBelief none = some 0 ∧
    signedMinimumEvidence none = some 1 ∧ signedMinimumBelief none = some 0 ∧
    metaboliteMinimumEvidence none = some 1 ∧
    metaboliteMinimumBelief none = some 0 := by
  refine ⟨rfl, rfl, by decide, ?_, by decide, ?_⟩ <;>
    exact pyFloat_zero_literal

/-- C9: the belief comparison is strict in all three query WHERE clauses —
a relation whose belief equals the threshold is rejected wherever the
threshold applies — and in the discrete/ORA query the threshold guards
only `indra_rel` relations: a relation with any other label passes or
fails the WHERE clause independently of its belief. -/
theorem c9_strict_belief_threshold (graph : List Relation) (nt : String)
    (genes rts gl ml g2t t2g : List String) (mb b₁ b₂ : ℚ)
    (me : Option Int) (down : Bool) (e : Relation) :
    (e.relType = "indra_rel" → e.belief = mb →
        oraWhere nt genes rts mb down e = false) ∧
    (e.relType ≠ "indra_rel" →
        oraWhere nt genes rts mb down { e with belief := b₁ } =
          oraWhere nt genes rts mb down { e with belief := b₂ }) ∧
    (e.belief = mb → e ∉ signedQuery graph nt gl rts mb me g2t t2g) ∧
    (e.belief = mb → e ∉ metaboliteQuery graph nt ml mb me) := by
  refine ⟨?_, ?_, ?_, ?_⟩
  · intro ht hb
    simp [oraWhere, ht, hb]
  · intro ht
    have hb : (e.relType != "indra_rel") = true := bne_iff_ne.mpr ht
    simp [oraWhere, hb]
  · intro hb hmem
    have hf := (mem_signedQuery.mp hmem).2.1
    simp [signedRowFilter, hb] at hf
  · intro hb hmem
    have hf := (mem_metaboliteQuery.mp hmem).2.1
    simp [metaboliteRowFilter, hb] at hf

/-- C10: a gene identifier without a `':'` separator makes the
split-and-index normalization raise an uncaught `IndexError`: the whole
invocation aborts (no result, no store query, no errors list) in both
`get_ora_statements` and `get_signed_statements`. -/
theorem c10_gene_without_colon_aborts (graph : List Relation)
    (fetch : Int → List Nat) (target_id : String)
    (genes pos neg : List String) (mb : ℚ) (me : Option Int) (down : Bool) :
    ((∃ g ∈ genes, pyContainsChar g ':' = false) →
        get_ora_statements graph fetch target_id genes mb me down = (none, 0)) ∧
    ((∃ g ∈ pos, pyContainsChar g ':' = false) ∨
        (∃ g ∈ neg, pyContainsChar g ':' = false) →
        get_signed_statements graph fetch target_id pos neg mb me = (none, 0)) := by
  constructor
  · rintro ⟨g, hg, hc⟩
    have hn := normalizeGenes_eq_none hg (pySplitIndex_one_eq_none hc)
    cases ht : pySplitIndex target_id 1 <;> simp [get_ora_statements, hn, ht]
  · rintro (⟨g, hg, hc⟩ | ⟨g, hg, hc⟩) <;>
      have hn := normalizeGenes_eq_none hg (pySplitIndex_one_eq_none hc)
    · cases ht : pySplitIndex target_id 1 <;>
        cases hneg : normalizeGenes neg <;>
          simp [get_signed_statements, hn, ht, hneg]
    · cases ht : pySplitIndex target_id 1 <;>
        cases hpos : normalizeGenes pos <;>
          simp [get_signed_statements, hn, ht, hpos]

/-- C1: with a store answering the signed positive-genes query with
relations of hashes 1, 1, 2 (evidence counts 5, 5, 7), the pipeline zips
the three-element relation list against the two deduplicated statements:
the second relation (hash 1) is paired with the second statement (hash 2),
and the evidence index records 5 — the hash-1 relations' count — under
hash 2, although the only hash-2 relation carries evidence count 7. -/
theorem c1_evidence_index_misaligned :
    (get_signed_statements misalignedGraph (fun _ => []) "MESH:D007239"
        ["HGNC:1"] [] 0 (some 1)).1 =
      some { stmts := [⟨1, []⟩, ⟨2, []⟩],
             evidence_counts := [(1, 5), (2, 5)] } ∧
    dictGet [(1, 5), (2, 5)] 2 = some 5 ∧
    misalignedGraph.map (fun e => (e.stmt_hash, e.evidence_count)) =
      [(1, 5), (1, 5), (2, 7)] := by
  refine ⟨?_, rfl, rfl⟩
  rfl

/-- C7, counterexample: same store, evidence counts 5, 5, 9. At
`minimum_evidence = 5` the result maps hash 2 to 5 (misaligned, see C1);
at `minimum_evidence = 6` it maps hash 2 to 9. The entry `(2, 9)` of the
higher-threshold run is not in the lower-threshold result, so the result
set at `N+1` is not a subset of the result set at `N`. -/
theorem c7_counterexample :
    (get_signed_statements thresholdGraph (fun _ => []) "MESH:D007239"
        ["HGNC:1"] [] 0 (some 6)).1 =
      some { stmts := [⟨2, []⟩], evidence_counts := [(2, 9)] } ∧
    (get_signed_statements thresholdGraph (fun _ => []) "MESH:D007239"
        ["HGNC:1"] [] 0 (some 5)).1 =
      some { stmts := [⟨1, []⟩, ⟨2, []⟩],
             evidence_counts := [(1, 5), (2, 5)] } ∧
    dictGet [(2, 9)] 2 ≠ dictGet [(1, 5), (2, 5)] 2 := by
  refine ⟨?_, ?_, by decide⟩ <;> rfl

/-- C4: in all three retrieval modes, the keys of the returned
evidence-count mapping are exactly the hashes of the returned assembled
statements — no key without a statement and no statement without a key. -/
theorem c4_evidence_index_domain (graph : List Relation)
    (fetch : Int → List Nat) (target_id : String)
    (genes pos neg chebi_ids errs : List String) (mb : ℚ) (me : Option Int)
    (down : Bool) (h : Int) :
    (∀ res, (get_ora_statements graph fetch target_id genes mb me down).1 =
          some res →
        (h ∈ dictKeys res.evidence_counts ↔ h ∈ res.stmts.map Stmt.hash)) ∧
    (∀ res, (get_signed_statements graph fetch target_id pos neg mb me).1 =
          some res →
        (h ∈ dictKeys res.evidence_counts ↔ h ∈ res.stmts.map Stmt.hash)) ∧
    (h ∈ dictKeys (get_metabolite_statements graph fetch (chebi_ids, errs)
          target_id mb me).1.evidence_counts ↔
      h ∈ (get_metabolite_statements graph fetch (chebi_ids, errs)
          target_id mb me).1.stmts.map Stmt.hash) := by
  refine ⟨?_, ?_, ?_⟩
  · intro res hres
    rcases hng : normalizeGenes genes with _ | ng <;>
      rcases ht : pySplitIndex target_id 1 with _ | ip <;>
        simp only [get_ora_statements, hng, ht, Option.some.injEq,
          reduceCtorEq] at hres
    subst hres
    rw [dictKeys_evidenceCountPairs]
  · intro res hres
    rcases hng : normalizeGenes pos with _ | np <;>
      rcases hnn : normalizeGenes neg with _ | nn <;>
        rcases ht : pySplitIndex target_id 1 with _ | ip <;>
          simp only [get_signed_statements, hng, hnn, ht, Option.some.injEq,
            reduceCtorEq] at hres
    subst hres
    rw [dictKeys_evidenceCountPairs]
  · rw [get_metabolite_statements]
    rw [dictKeys_evidenceCountPairs]

/-- C8: a discrete-retrieval request with a missing or empty `target_id`
or an empty gene list, or with a non-coercible `minimum_evidence` or
`minimum_belief` string, is answered with a 400 error before any
graph-store query runs (the call count is 0). A non-empty string is
non-coercible when `int`/`float` raises on it; an empty string instead
falls back to the default via the `or` expressions of lines 271-272. -/
theorem c8_invalid_parameters (graph : List Relation)
    (fetch : Int → List Nat) (req : OraRequest) :
    ((req.target_id = none ∨ req.target_id = some "" ∨ req.genes = []) →
        ((search_ora_statements graph fetch req).1 =
            Except.error "target_id and genes are required" ∨
          (search_ora_statements graph fetch req).1 =
            Except.error "Invalid parameter values") ∧
        (search_ora_statements graph fetch req).2 = 0) ∧
    (∀ s, req.minimum_evidence = some s → s ≠ "" → pyInt s = none →
        search_ora_statements graph fetch req =
          (Except.error "Invalid parameter values", 0)) ∧
    (∀ s, req.minimum_belief = some s → s ≠ "" → pyFloat s = none →
        search_ora_statements graph fetch req =
          (Except.error "Invalid parameter values", 0)) := by
  refine ⟨?_, ?_, ?_⟩
  · intro hreq
    rcases he : oraMinimumEvidence req.minimum_evidence with _ | ev <;>
      rcases hb : oraMinimumBelief req.minimum_belief with _ | bel
    · simp [search_ora_statements, he, hb]
    · simp [search_ora_statements, he, hb]
    · simp [search_ora_statements, he, hb]
    · have hcond : req.target_id.getD "" = "" ∨ req.genes = [] := by
        rcases hreq with h1 | h1 | h1
        · exact Or.inl (by rw [h1]; rfl)
        · exact Or.inl (by rw [h1]; rfl)
        · exact Or.inr h1
      simp only [search_ora_statements, he, hb]
      rw [if_pos hcond]
      exact ⟨Or.inl rfl, rfl⟩
  · intro s hs hne hpy
    have he : oraMinimumEvidence req.minimum_evidence = none := by
      rw [hs]
      simp [oraMinimumEvidence, hne, hpy]
    rcases hb : oraMinimumBelief req.minimum_belief with _ | bel <;>
      simp [search_ora_statements, he, hb]
  · intro s hs hne hpy
    have hb : oraMinimumBelief req.minimum_belief = none := by
      rw [hs]
      simp [oraMinimumBelief, hne, hpy]
    rcases he : oraMinimumEvidence req.minimum_evidence with _ | ev <;>
      simp [search_ora_statements, he, hb]

theorem mem_map_hash_mono {l₁ l₂ : List Relation}
    (hsub : ∀ x ∈ l₁, x ∈ l₂) {h : Int}
    (hm : h ∈ l₁.map Relation.stmt_hash) : h ∈ l₂.map Relation.stmt_hash := by
  rcases List.mem_map.mp hm with ⟨x, hx, rfl⟩
  exact List.mem_map.mpr ⟨x, hsub x hx, rfl⟩

/-- A pipeline assembled from a smaller flattened relation list has a
smaller statement hash set. -/
theorem assembled_hash_mono (fetch : Int → List Nat) {l₁ l₂ : List Relation}
    (hsub : ∀ x ∈ l₁, x ∈ l₂) {h : Int}
    (hm : h ∈ (enrich_statements fetch
        (indra_stmts_from_relations l₁)).map Stmt.hash) :
    h ∈ (enrich_statements fetch (indra_stmts_from_relations l₂)).map Stmt.hash :=
  mem_assembled_hash.mpr (mem_map_hash_mono hsub (mem_assembled_hash.mp hm))

theorem mem_signedQuery_mono {graph : List Relation} {nt : String}
    {gl rt g2t t2g : List String} {mb : ℚ} {n : Int} {e : Relation}
    (h : e ∈ signedQuery graph nt gl rt mb (some (n + 1)) g2t t2g) :
    e ∈ signedQuery graph nt gl rt mb (some n) g2t t2g := by
  rcases mem_signedQuery.mp h with ⟨hg, hf, hd⟩
  exact mem_signedQuery.mpr ⟨hg, signedRowFilter_mono hf, hd⟩

theorem mem_metaboliteQuery_mono {graph : List Relation} {nt : String}
    {ml : List String} {mb : ℚ} {n : Int} {e : Relation}
    (h : e ∈ metaboliteQuery graph nt ml mb (some (n + 1))) :
    e ∈ metaboliteQuery graph nt ml mb (some n) := by
  rcases mem_metaboliteQuery.mp h with ⟨hg, hf, hd⟩
  exact mem_metaboliteQuery.mpr ⟨hg, metaboliteRowFilter_mono hf, hd⟩

/-- C7, amended: raising `minimum_evidence` from N to N+1 never adds a
statement or an evidence-index key: the statement hash set and the
evidence-index domain at N+1 are subsets of those at N, in all three
retrieval modes. (The values attached to surviving keys can change — see
the counterexample — so subset inclusion of whole index entries fails.) -/
theorem c7_evidence_threshold_monotone (graph : List Relation)
    (fetch : Int → List Nat) (target_id : String)
    (genes pos neg chebi_ids errs : List String) (mb : ℚ) (n : Int)
    (down : Bool) (h : Int) :
    (∀ r₁ r₂,
        (get_ora_statements graph fetch target_id genes mb (some (n + 1))
            down).1 = some r₁ →
        (get_ora_statements graph fetch target_id genes mb (some n) down).1 =
            some r₂ →
        (h ∈ r₁.stmts.map Stmt.hash → h ∈ r₂.stmts.map Stmt.hash) ∧
        (h ∈ dictKeys r₁.evidence_counts → h ∈ dictKeys r₂.evidence_counts)) ∧
    (∀ r₁ r₂,
        (get_signed_statements graph fetch target_id pos neg mb
            (some (n + 1))).1 = some r₁ →
        (get_signed_statements graph fetch target_id pos neg mb (some n)).1 =
            some r₂ →
        (h ∈ r₁.stmts.map Stmt.hash → h ∈ r₂.stmts.map Stmt.hash) ∧
        (h ∈ dictKeys r₁.evidence_counts → h ∈ dictKeys r₂.evidence_counts)) ∧
    ((h ∈ (get_metabolite_statements graph fetch (chebi_ids, errs) target_id
            mb (some (n + 1))).1.stmts.map Stmt.hash →
        h ∈ (get_metabolite_statements graph fetch (chebi_ids, errs) target_id
            mb (some n)).1.stmts.map Stmt.hash) ∧
      (h ∈ dictKeys (get_metabolite_statements graph fetch (chebi_ids, errs)
            target_id mb (some (n + 1))).1.evidence_counts →
        h ∈ dictKeys (get_metabolite_statements graph fetch (chebi_ids, errs)
            target_id mb (some n)).1.evidence_counts)) := by
  refine ⟨?_, ?_, ?_⟩
  · intro r₁ r₂ h₁ h₂
    rcases hng : normalizeGenes genes with _ | ng <;>
      rcases ht : pySplitIndex target_id 1 with _ | ip <;>
        simp only [get_ora_statements, hng, ht, Option.some.injEq,
          reduceCtorEq] at h₁ h₂
    subst h₁
    subst h₂
    refine ⟨assembled_hash_mono fetch
      (fun x hx => mem_pythonMinEvidenceFilter_succ hx), ?_⟩
    rw [dictKeys_evidenceCountPairs, dictKeys_evidenceCountPairs]
    exact assembled_hash_mono fetch
      (fun x hx => mem_pythonMinEvidenceFilter_succ hx)
  · intro r₁ r₂ h₁ h₂
    rcases hng : normalizeGenes pos with _ | np <;>
      rcases hnn : normalizeGenes neg with _ | nn <;>
        rcases ht : pySplitIndex target_id 1 with _ | ip <;>
          simp only [get_signed_statements, hng, hnn, ht, Option.some.injEq,
            reduceCtorEq] at h₁ h₂
    subst h₁
    subst h₂
    have hsub : ∀ x, x ∈
        ((if np.isEmpty then [] else signedQuery graph
            (signedNormalizedTarget target_id
              (pyLower (((pySplit target_id).get? 0).getD "")) ip) np
            (signedRelTypes (pyLower (((pySplit target_id).get? 0).getD "")))
            mb (some (n + 1)) posStmtTypesGeneToTarget
            posStmtTypesTargetToGene) ++
          (if nn.isEmpty then [] else signedQuery graph
            (signedNormalizedTarget target_id
              (pyLower (((pySplit target_id).get? 0).getD "")) ip) nn
            (signedRelTypes (pyLower (((pySplit target_id).get? 0).getD "")))
            mb (some (n + 1)) negStmtTypesGeneToTarget
            negStmtTypesTargetToGene)) → x ∈
        ((if np.isEmpty then [] else signedQuery graph
            (signedNormalizedTarget target_id
              (pyLower (((pySplit target_id).get? 0).getD "")) ip) np
            (signedRelTypes (pyLower (((pySplit target_id).get? 0).getD "")))
            mb (some n) posStmtTypesGeneToTarget posStmtTypesTargetToGene) ++
          (if nn.isEmpty then [] else signedQuery graph
            (signedNormalizedTarget target_id
              (pyLower (((pySplit target_id).get? 0).getD "")) ip) nn
            (signedRelTypes (pyLower (((pySplit target_id).get? 0).getD "")))
            mb (some n) negStmtTypesGeneToTarget
            negStmtTypesTargetToGene)) := by
      intro x hx
      rcases List.mem_append.mp hx with hx | hx
      · refine List.mem_append.mpr (Or.inl ?_)
        by_cases hp : np.isEmpty
        · simp [hp] at hx
        · simp only [if_neg hp] at hx ⊢
          exact mem_signedQuery_mono hx
      · refine List.mem_append.mpr (Or.inr ?_)
        by_cases hq : nn.isEmpty
        · simp [hq] at hx
        · simp only [if_neg hq] at hx ⊢
          exact mem_signedQuery_mono hx
    refine ⟨assembled_hash_mono fetch hsub, ?_⟩
    rw [dictKeys_evidenceCountPairs, dictKeys_evidenceCountPairs]
    exact assembled_hash_mono fetch hsub
  · rw [get_metabolite_statements, get_metabolite_statements]
    refine ⟨assembled_hash_mono fetch
      (fun x hx => mem_metaboliteQuery_mono hx), ?_⟩
    rw [dictKeys_evidenceCountPairs, dictKeys_evidenceCountPairs]
    exact assembled_hash_mono fetch
      (fun x hx => mem_metaboliteQuery_mono hx)

/-- C4 at a concrete signed invocation whose result is known. -/
theorem c4_evidence_index_domain_witness :
    (1 : Int) ∈ dictKeys [((1 : Int), (5 : Nat)), (2, 5)] ↔
      (1 : Int) ∈ ([⟨1, []⟩, ⟨2, []⟩] : List Stmt).map Stmt.hash :=
  (c4_evidence_index_domain misalignedGraph (fun _ => []) "MESH:D007239"
      [] ["HGNC:1"] [] [] [] 0 (some 1) false 1).2.1
    { stmts := [⟨1, []⟩, ⟨2, []⟩], evidence_counts := [(1, 5), (2, 5)] } rfl

/-- C7 at the concrete thresholds 6 and 5 on the counterexample store. -/
theorem c7_evidence_threshold_monotone_witness :
    ((2 : Int) ∈ ([⟨2, []⟩] : List Stmt).map Stmt.hash →
      (2 : Int) ∈ ([⟨1, []⟩, ⟨2, []⟩] : List Stmt).map Stmt.hash) ∧
    ((2 : Int) ∈ dictKeys [((2 : Int), (9 : Nat))] →
      (2 : Int) ∈ dictKeys [((1 : Int), (5 : Nat)), (2, 5)]) :=
  (c7_evidence_threshold_monotone thresholdGraph (fun _ => []) "MESH:D007239"
      [] ["HGNC:1"] [] [] [] 0 5 false 2).2.1
    { stmts := [⟨2, []⟩], evidence_counts := [(2, 9)] }
    { stmts := [⟨1, []⟩, ⟨2, []⟩], evidence_counts := [(1, 5), (2, 5)] } rfl rfl

/-- C8 at a concrete request with an empty gene list: a 400 error and zero
store queries. -/
theorem c8_invalid_parameters_witness :
    ((search_ora_statements [] (fun _ => []) emptyGenesRequest).1 =
        Except.error "target_id and genes are required" ∨
      (search_ora_statements [] (fun _ => []) emptyGenesRequest).1 =
        Except.error "Invalid parameter values") ∧
    (search_ora_statements [] (fun _ => []) emptyGenesRequest).2 = 0 :=
  (c8_invalid_parameters [] (fun _ => []) emptyGenesRequest).1
    (Or.inr (Or.inr rfl))

/-- C9 at a concrete `indra_rel` relation whose belief equals the
threshold: the ORA WHERE clause rejects it. -/
theorem c9_strict_belief_threshold_witness :
    oraWhere "mesh:D007239" ["hgnc:1"] ["indra_rel"] 1 false
      (sampleEdge 1 5 "Inhibition") = false :=
  (c9_strict_belief_threshold [] "mesh:D007239" ["hgnc:1"] ["indra_rel"]
    [] [] [] [] 1 0 0 (some 1) false (sampleEdge 1 5 "Inhibition")).1 rfl rfl

/-- C10 at a concrete bare-symbol gene: the whole ORA invocation aborts
with no store call. -/
theorem c10_gene_without_colon_aborts_witness :
    get_ora_statements [] (fun _ => []) "GO:0006955" ["BRCA1"] 0 none false =
      (none, 0) :=
  (c10_gene_without_colon_aborts [] (fun _ => []) "GO:0006955" ["BRCA1"]
      [] [] 0 none false).1 ⟨"BRCA1", List.mem_singleton.mpr rfl, rfl⟩

end IndraCogex













